import Mathlib

/-!
Verification of the client-side audio capture and preprocessing pipeline of
the manpro song-identification app.

The definitions below are a shallow embedding of the TypeScript source:

  - src/src/components/HistorySkeleton.tsx : audio utility functions
    (VOLUME_BOOST, normalizeAudioVolume, audioBufferToWavBlob, convertToWav,
    createMinimalWav, canDecodeAudio);
  - src/src/app/page.tsx : the capture controller and recognition submitter
    (ondataavailable, recognizeSong, handleStopRecording, the timeout).

Browser-platform facilities that the code calls but does not define
(AudioContext.decodeAudioData, the OfflineAudioContext biquad shelving
filters) are parameters of the model, collected in a Platform record.
Floating-point samples are modelled as rationals; DataView writes are
modelled as little-endian byte lists with the same wrap-around semantics.
-/

/-- A browser Blob: a declared MIME type plus raw bytes.  Each byte is a
Nat that the byte-level writers keep below 256. -/
structure Blob where
  type : String
  data : List Nat
  deriving DecidableEq, Repr

/-- A decoded Web Audio buffer: channel count, frame count, sample rate and
the per-channel Float32 sample data (modelled as rationals). -/
structure AudioBuffer where
  numberOfChannels : Nat
  length : Nat
  sampleRate : Nat
  channelData : List (List ℚ)
  deriving DecidableEq, Repr

/-- The browser audio facilities the pipeline calls but does not define.
decode models AudioContext.decodeAudioData (none means the decode promise
rejected); shelfFilter models the combined effect of the two biquad
shelving filters built in humming mode (their transfer function is
transcendental, so it stays abstract). -/
structure Platform where
  decode : List Nat → Option AudioBuffer
  shelfFilter : List (List ℚ) → List (List ℚ)

/-- Little-endian bytes written by DataView.setUint16 (wraps mod 2^16). -/
def u16le (n : Nat) : List Nat := [n % 256, n / 256 % 256]

/-- Little-endian bytes written by DataView.setUint32 (wraps mod 2^32). -/
def u32le (n : Nat) : List Nat :=
  [n % 256, n / 256 % 256, n / 65536 % 256, n / 16777216 % 256]

/-- Two-complement little-endian bytes written by DataView.setInt16. -/
def i16le (v : Int) : List Nat := u16le (v % 65536).toNat

/-- Read an unsigned 16-bit little-endian value at offset i of a byte list. -/
def readU16At (l : List Nat) (i : Nat) : Nat :=
  l.getD i 0 + 256 * l.getD (i + 1) 0

/-- Read an unsigned 32-bit little-endian value at offset i of a byte list. -/
def readU32At (l : List Nat) (i : Nat) : Nat :=
  l.getD i 0 + 256 * l.getD (i + 1) 0 + 65536 * l.getD (i + 2) 0
    + 16777216 * l.getD (i + 3) 0

/-- Read back a signed 16-bit little-endian value at offset 0. -/
def readI16 (l : List Nat) : Int :=
  if readU16At l 0 < 32768 then (readU16At l 0 : Int)
  else (readU16At l 0 : Int) - 65536

/-- Math.max(-1, Math.min(1, sample)) from audioBufferToWavBlob. -/
def clampSample (s : ℚ) : ℚ := max (-1) (min 1 s)

/-- sample < 0 ? sample * 0x8000 : sample * 0x7fff, from audioBufferToWavBlob. -/
def scaleSample (s : ℚ) : ℚ := if s < 0 then s * 32768 else s * 32767

/-- Truncation toward zero, the ToInteger conversion DataView.setInt16
applies to a fractional value. -/
def truncQ (q : ℚ) : Int := if 0 ≤ q then ⌊q⌋ else -⌊-q⌋

/-- The 16-bit integer audioBufferToWavBlob stores for one input sample:
clamp to [-1, 1], scale (negative by 32768, nonnegative by 32767), then
truncate toward zero. -/
def sampleToInt16 (s : ℚ) : Int := truncQ (scaleSample (clampSample s))

/-- channels[i][offset] in the interleaving loop.  A read past the end of
the channel data yields undefined in JS, which the clamp turns into NaN and
setInt16 stores as 0; getD with default 0 produces the same bytes. -/
def channelSample (buf : AudioBuffer) (i off : Nat) : ℚ :=
  (buf.channelData.getD i []).getD off 0

/-- The 2*C data bytes one iteration of the interleaving while-loop writes:
one 16-bit sample per channel, in channel order. -/
def frameBytes (buf : AudioBuffer) (off : Nat) : List Nat :=
  (List.range buf.numberOfChannels).flatMap
    (fun i => i16le (sampleToInt16 (channelSample buf i off)))

/-- The 44 header bytes audioBufferToWavBlob writes, in the order of its
setUint32/setUint16 calls. -/
def wavHeader (buf : AudioBuffer) : List Nat :=
  u32le 0x46464952 ++
  u32le (36 + buf.length * buf.numberOfChannels * 2) ++
  u32le 0x45564157 ++
  u32le 0x20746d66 ++
  u32le 16 ++
  u16le 1 ++
  u16le buf.numberOfChannels ++
  u32le buf.sampleRate ++
  u32le (buf.sampleRate * buf.numberOfChannels * 2) ++
  u16le (buf.numberOfChannels * 2) ++
  u16le 16 ++
  u32le 0x61746164 ++
  u32le (buf.length * buf.numberOfChannels * 2)

/-- The data section: the while-loop runs once per frame (the buffer holds
exactly length * channels * 2 data bytes and each iteration writes
channels * 2 of them), interleaving the channels frame by frame. -/
def wavData (buf : AudioBuffer) : List Nat :=
  (List.range buf.length).flatMap (frameBytes buf)

/-- audioBufferToWavBlob from HistorySkeleton.tsx: 44-byte RIFF/WAVE header
followed by interleaved 16-bit PCM samples, typed audio/wav. -/
def audioBufferToWavBlob (audioBuffer : AudioBuffer) : Blob :=
  { type := "audio/wav", data := wavHeader audioBuffer ++ wavData audioBuffer }

/-- writeString from HistorySkeleton.tsx: setUint8 of each UTF-16 code unit
(mod 256, which is the identity on the ASCII tags used). -/
def writeStringBytes (s : String) : List Nat := s.data.map (fun c => c.toNat % 256)

/-- The 44 header bytes createMinimalWav writes: RIFF/WAVE with assumed
parameters mono, 44100 Hz, 16-bit PCM, data length = len. -/
def minimalWavHeader (len : Nat) : List Nat :=
  writeStringBytes "RIFF" ++
  u32le (36 + len) ++
  writeStringBytes "WAVE" ++
  writeStringBytes "fmt " ++
  u32le 16 ++
  u16le 1 ++
  u16le 1 ++
  u32le 44100 ++
  u32le (44100 * 1 * 16 / 8) ++
  u16le (1 * 16 / 8) ++
  u16le 16 ++
  writeStringBytes "data" ++
  u32le len

/-- createMinimalWav from HistorySkeleton.tsx: minimal header followed by
the raw, un-decoded input bytes, typed audio/wav. -/
def createMinimalWav (rawAudioData : List Nat) : Blob :=
  { type := "audio/wav", data := minimalWavHeader rawAudioData.length ++ rawAudioData }

/-- convertToWav from HistorySkeleton.tsx.  WAVE-typed input returns
unchanged; an empty byte buffer throws inside the inner try, the inner
catch cannot wrap an empty buffer and rethrows, and the outer catch returns
the original blob; a failed decode of a non-empty buffer falls back to
createMinimalWav; a successful decode is re-encoded via
audioBufferToWavBlob. -/
def convertToWav (env : Platform) (audioBlob : Blob) : Blob :=
  if audioBlob.type = "audio/wav" then audioBlob
  else if audioBlob.data.length = 0 then audioBlob
  else
    match env.decode audioBlob.data with
    | some audioBuffer => audioBufferToWavBlob audioBuffer
    | none => createMinimalWav audioBlob.data

/-- Observable effects of one canDecodeAudio call: its boolean result plus
how many AudioContexts it constructed and how many it closed. -/
structure ProbeTrace where
  result : Bool
  opened : Nat
  closed : Nat
  deriving DecidableEq, Repr

/-- canDecodeAudio from HistorySkeleton.tsx, with its AudioContext
lifecycle made explicit.  The WAVE fast path opens nothing; the empty-input
path and the successful-decode path close the context they opened; the
decode-failure path returns false from the catch block, where the context
variable is out of scope, so the context it opened is never closed. -/
def canDecodeAudio (env : Platform) (audioBlob : Blob) : ProbeTrace :=
  if audioBlob.type = "audio/wav" then ⟨true, 0, 0⟩
  else if audioBlob.data.length = 0 then ⟨false, 1, 1⟩
  else
    match env.decode audioBlob.data with
    | some _ => ⟨true, 1, 1⟩
    | none => ⟨false, 1, 0⟩

/-- The gain stage: every sample of every channel is multiplied by the gain
value (the GainNode of the offline render graph). -/
def applyGain (g : ℚ) (chans : List (List ℚ)) : List (List ℚ) :=
  chans.map (fun c => c.map (fun x => x * g))

/-- The offline render graph of normalizeAudioVolume: source, gain node,
and - only in humming mode - the low-shelf(+6dB@1000Hz) and
high-shelf(-3dB@3000Hz) pair, modelled by the abstract Platform filter. -/
def renderChannels (env : Platform) (g : ℚ) (forHumming : Bool)
    (chans : List (List ℚ)) : List (List ℚ) :=
  if forHumming then env.shelfFilter (applyGain g chans) else applyGain g chans

/-- The buffer produced by OfflineAudioContext.startRendering: same channel
count, length and sample rate as the decoded input, samples run through the
render graph. -/
def renderBuffer (env : Platform) (buf : AudioBuffer) (g : ℚ)
    (forHumming : Bool) : AudioBuffer :=
  { buf with channelData := renderChannels env g forHumming buf.channelData }

/-- normalizeAudioVolume from HistorySkeleton.tsx.  Empty blobs and
WAVE-typed blobs return unchanged; a failed decode returns the original
blob (the catch path never rethrows); an empty decoded buffer returns the
original blob; otherwise the offline render result is re-encoded to WAVE.
The function is total: every failure is expressed as a returned blob. -/
def normalizeAudioVolume (env : Platform) (audioBlob : Blob)
    (gainMultiplier : ℚ) (forHumming : Bool) : Blob :=
  if audioBlob.data.length = 0 then audioBlob
  else if audioBlob.type = "audio/wav" then audioBlob
  else
    match env.decode audioBlob.data with
    | none => audioBlob
    | some audioBuffer =>
      if audioBuffer.length = 0 then audioBlob
      else audioBufferToWavBlob (renderBuffer env audioBuffer gainMultiplier forHumming)

/-- The VOLUME_BOOST constant of HistorySkeleton.tsx. -/
structure VolumeBoost where
  MUSIC : ℚ
  HUMMING : ℚ
  deriving DecidableEq, Repr

/-- VOLUME_BOOST = { MUSIC: 2.5, HUMMING: 4.0 }. -/
def VOLUME_BOOST : VolumeBoost := { MUSIC := 5 / 2, HUMMING := 4 }

/-- What one ondataavailable segment pipeline produces: the blob handed to
recognizeSong (none when the segment is discarded) together with the list
of (gain, forHumming) argument pairs of its normalizeAudioVolume calls. -/
structure SegmentOutcome where
  submitted : Option Blob
  normalizeCalls : List (ℚ × Bool)
  deriving DecidableEq, Repr

/-- The ondataavailable handler of page.tsx as a data-flow function: a
latched result discards the segment, empty data is ignored, a decodable
segment goes through normalizeAudioVolume with VOLUME_BOOST.MUSIC and
forHumming = false, and an undecodable one through convertToWav. -/
def processSegment (env : Platform) (latched : Bool) (data : Blob) : SegmentOutcome :=
  if latched then ⟨none, []⟩
  else if data.data.length = 0 then ⟨none, []⟩
  else if (canDecodeAudio env data).result then
    ⟨some (normalizeAudioVolume env data VOLUME_BOOST.MUSIC false),
      [(VOLUME_BOOST.MUSIC, false)]⟩
  else ⟨some (convertToWav env data), []⟩

/-- The outcome of one /api/recognize response in recognizeSong:
status 204 (no content), a success body with a title (a match), a success
body without a title (no result in this chunk), or a thrown error. -/
inductive Outcome where
  | noContent
  | matched (r : String)
  | noTitle
  | failed
  deriving DecidableEq, Repr

/-- The cross-closure session state of page.tsx.  latch is resultRef,
recognizing is isRecognizingRef (the refs the guards read synchronously),
capturing tracks whether the stream and recorder are live, pipes counts
segment pipelines between ondataavailable entry and submission, and flight
counts outstanding /api/recognize requests. -/
structure Sess where
  latch : Option String
  recognizing : Bool
  capturing : Bool
  pipes : Nat
  flight : Nat
  deriving DecidableEq, Repr

/-- ondataavailable entry: a latched result returns at once, empty data is
skipped, otherwise a segment pipeline starts processing. -/
def segArrive (d : Blob) (s : Sess) : Sess :=
  if s.latch.isSome then s
  else if d.data.length = 0 then s
  else { s with pipes := s.pipes + 1 }

/-- A segment pipeline finishes preprocessing and reaches the submit site:
the latch is re-checked right before recognizeSong, and recognizeSong
itself returns at once when an attempt is in flight or the latch is set;
otherwise it sets isRecognizingRef and issues the fetch in the same
synchronous stretch. -/
def submitStep (s : Sess) : Sess :=
  if s.latch.isSome then { s with pipes := s.pipes - 1 }
  else if s.recognizing then { s with pipes := s.pipes - 1 }
  else { s with pipes := s.pipes - 1, recognizing := true, flight := s.flight + 1 }

/-- The response handler of an outstanding recognizeSong fetch.  A 204
clears the recognizing flag; a match sets resultRef and calls
handleStopRecording before anything else awaits; a success without title
just clears the flag; a thrown error calls handleStopRecording; the finally
block clears isRecognizingRef on every path. -/
def completeStep (o : Outcome) (s : Sess) : Sess :=
  match o with
  | Outcome.noContent => { s with flight := s.flight - 1, recognizing := false }
  | Outcome.noTitle => { s with flight := s.flight - 1, recognizing := false }
  | Outcome.matched r =>
      { s with flight := s.flight - 1, recognizing := false,
               latch := some r, capturing := false }
  | Outcome.failed =>
      { s with flight := s.flight - 1, recognizing := false, capturing := false }

/-- The 30s timeout callback: it returns at once when the latch is set,
otherwise it surfaces the no-match message and calls handleStopRecording.
handleStopRecording mutates only React state, not the refs, so the latch
and the recognizing ref are untouched. -/
def timeoutStep (s : Sess) : Sess :=
  if s.latch.isSome then s else { s with capturing := false }

/-- A manual stop click: handleStopRecording stops the recorder and the
stream tracks; the refs are untouched. -/
def stopStep (s : Sess) : Sess := { s with capturing := false }

/-- One event-loop step of a recording session: a segment arrives, a
pipeline reaches the submit site, an outstanding request completes, the
timeout fires, or the user stops capture.  Pipelines and completions fire
in any order with respect to each other, which models the unordered
completion of overlapping asynchronous work. -/
inductive SessStep : Sess → Sess → Prop where
  | seg (d : Blob) {s : Sess} : SessStep s (segArrive d s)
  | submit {s : Sess} : 1 ≤ s.pipes → SessStep s (submitStep s)
  | complete (o : Outcome) {s : Sess} : 1 ≤ s.flight → SessStep s (completeStep o s)
  | timeout {s : Sess} : SessStep s (timeoutStep s)
  | stop {s : Sess} : SessStep s (stopStep s)

/-- The state right after handleStartRecording succeeds: no latch, no
attempt in flight, capture running. -/
def initSess : Sess :=
  { latch := none, recognizing := false, capturing := true, pipes := 0, flight := 0 }

/-- States a recording session can actually reach. -/
inductive Reach : Sess → Prop where
  | init : Reach initSess
  | step {s t : Sess} : Reach s → SessStep s t → Reach t

/-- The synchronization invariant of the session: the recognizing ref is
set exactly while a request is outstanding, and a latched session has no
outstanding request, a clear recognizing ref, and stopped capture. -/
def SessInv (s : Sess) : Prop :=
  s.flight = (if s.recognizing then 1 else 0) ∧
  (s.latch.isSome → s.recognizing = false ∧ s.capturing = false ∧ s.flight = 0)

theorem sessInv_step {s t : Sess} (hinv : SessInv s) (hstep : SessStep s t) :
    SessInv t := by
  rcases hinv with ⟨ih1, ih2⟩
  cases hstep with
  | seg d =>
    unfold segArrive
    split
    · exact ⟨ih1, ih2⟩
    · split
      · exact ⟨ih1, ih2⟩
      · exact ⟨ih1, ih2⟩
  | submit hp =>
    unfold submitStep
    split
    · exact ⟨ih1, ih2⟩
    · split
      · exact ⟨ih1, ih2⟩
      · next hrec =>
        refine ⟨by simp [ih1, hrec], ?_⟩
        intro hl
        simp_all
  | complete o hf =>
    have hone : s.flight = 1 := by
      rcases Bool.eq_false_or_eq_true s.recognizing with hb | hb <;>
        rw [hb] at ih1 <;> simp at ih1 <;> omega
    cases o with
    | noContent =>
      refine ⟨by simp [completeStep]; omega, ?_⟩
      intro hl
      simp only [completeStep] at hl
      rcases ih2 hl with ⟨_, h2, _⟩
      simp [completeStep, h2]; omega
    | noTitle =>
      refine ⟨by simp [completeStep]; omega, ?_⟩
      intro hl
      simp only [completeStep] at hl
      rcases ih2 hl with ⟨_, h2, _⟩
      simp [completeStep, h2]; omega
    | matched r =>
      refine ⟨by simp [completeStep]; omega, ?_⟩
      intro _
      simp [completeStep]; omega
    | failed =>
      refine ⟨by simp [completeStep]; omega, ?_⟩
      intro hl
      simp [completeStep]; omega
  | timeout =>
    unfold timeoutStep
    split
    · exact ⟨ih1, ih2⟩
    · next hl =>
      refine ⟨ih1, ?_⟩
      intro hl2
      simp_all
  | stop =>
    refine ⟨ih1, ?_⟩
    intro hl
    simp only [stopStep] at hl
    rcases ih2 hl with ⟨h1, _, h3⟩
    exact ⟨h1, rfl, h3⟩

theorem sessInv_of_reach {s : Sess} (h : Reach s) : SessInv s := by
  induction h with
  | init => simp [SessInv, initSess]
  | step hr hstep ih => exact sessInv_step ih hstep

theorem clampSample_bounds (s : ℚ) : -1 ≤ clampSample s ∧ clampSample s ≤ 1 := by
  constructor
  · exact le_max_left _ _
  · unfold clampSample
    rcases le_total (min 1 s) (-1) with h | h
    · rw [max_eq_left h]; norm_num
    · rw [max_eq_right h]; exact min_le_left _ _

theorem clampSample_idem (s : ℚ) : clampSample (clampSample s) = clampSample s := by
  obtain ⟨h1, h2⟩ := clampSample_bounds s
  rw [show clampSample (clampSample s) = max (-1) (min 1 (clampSample s)) from rfl,
    min_eq_right h2, max_eq_right h1]

theorem sampleToInt16_bounds (s : ℚ) :
    -32768 ≤ sampleToInt16 s ∧ sampleToInt16 s ≤ 32767 := by
  obtain ⟨hc1, hc2⟩ := clampSample_bounds s
  unfold sampleToInt16 scaleSample
  rcases lt_or_le (clampSample s) 0 with hneg | hpos
  · rw [if_pos hneg]
    unfold truncQ
    have hq1 : (-32768 : ℚ) ≤ clampSample s * 32768 := by nlinarith
    have hq2 : clampSample s * 32768 < 0 := by nlinarith
    rw [if_neg (by linarith)]
    have hf1 : ⌊-(clampSample s * 32768)⌋ ≤ 32768 := by
      have hle : -(clampSample s * 32768) ≤ ((32768 : ℤ) : ℚ) := by push_cast; linarith
      calc ⌊-(clampSample s * 32768)⌋ ≤ ⌊((32768 : ℤ) : ℚ)⌋ := Int.floor_mono hle
        _ = 32768 := Int.floor_intCast _
    have hf2 : 0 ≤ ⌊-(clampSample s * 32768)⌋ := by
      apply Int.le_floor.mpr
      push_cast
      linarith
    omega
  · rw [if_neg (not_lt.mpr hpos)]
    unfold truncQ
    rw [if_pos (by nlinarith)]
    have hf1 : ⌊clampSample s * 32767⌋ ≤ 32767 := by
      have hle : clampSample s * 32767 ≤ ((32767 : ℤ) : ℚ) := by push_cast; nlinarith
      calc ⌊clampSample s * 32767⌋ ≤ ⌊((32767 : ℤ) : ℚ)⌋ := Int.floor_mono hle
        _ = 32767 := Int.floor_intCast _
    have hf2 : 0 ≤ ⌊clampSample s * 32767⌋ := Int.le_floor.mpr (by push_cast; nlinarith)
    omega

theorem readI16_i16le (v : Int) (h1 : -32768 ≤ v) (h2 : v ≤ 32767) :
    readI16 (i16le v) = v := by
  have hU : readU16At (i16le v) 0
      = (v % 65536).toNat % 256 + 256 * ((v % 65536).toNat / 256 % 256) := rfl
  unfold readI16
  rw [hU]
  split <;> omega

theorem length_flatMap_const {α β : Type} (l : List α) (f : α → List β) (k : Nat)
    (h : ∀ a, (f a).length = k) : (l.flatMap f).length = l.length * k := by
  induction l with
  | nil => simp
  | cons a t ih => simp [h, ih, Nat.succ_mul, Nat.add_comm]

theorem frameBytes_length (buf : AudioBuffer) (off : Nat) :
    (frameBytes buf off).length = buf.numberOfChannels * 2 := by
  have h := length_flatMap_const (List.range buf.numberOfChannels)
    (fun i => i16le (sampleToInt16 (channelSample buf i off))) 2 (fun a => rfl)
  unfold frameBytes
  rw [h]
  simp

theorem wavData_length (buf : AudioBuffer) :
    (wavData buf).length = buf.length * buf.numberOfChannels * 2 := by
  unfold wavData
  rw [length_flatMap_const _ _ (buf.numberOfChannels * 2) (frameBytes_length buf)]
  simp [Nat.mul_assoc]

theorem wavBytes_cons (buf : AudioBuffer) :
    (audioBufferToWavBlob buf).data =
      82 :: 73 :: 70 :: 70 ::
      ((36 + buf.length * buf.numberOfChannels * 2) % 256) ::
      ((36 + buf.length * buf.numberOfChannels * 2) / 256 % 256) ::
      ((36 + buf.length * buf.numberOfChannels * 2) / 65536 % 256) ::
      ((36 + buf.length * buf.numberOfChannels * 2) / 16777216 % 256) ::
      87 :: 65 :: 86 :: 69 ::
      102 :: 109 :: 116 :: 32 ::
      16 :: 0 :: 0 :: 0 ::
      1 :: 0 ::
      (buf.numberOfChannels % 256) :: (buf.numberOfChannels / 256 % 256) ::
      (buf.sampleRate % 256) :: (buf.sampleRate / 256 % 256) ::
      (buf.sampleRate / 65536 % 256) :: (buf.sampleRate / 16777216 % 256) ::
      (buf.sampleRate * buf.numberOfChannels * 2 % 256) ::
      (buf.sampleRate * buf.numberOfChannels * 2 / 256 % 256) ::
      (buf.sampleRate * buf.numberOfChannels * 2 / 65536 % 256) ::
      (buf.sampleRate * buf.numberOfChannels * 2 / 16777216 % 256) ::
      (buf.numberOfChannels * 2 % 256) :: (buf.numberOfChannels * 2 / 256 % 256) ::
      16 :: 0 ::
      100 :: 97 :: 116 :: 97 ::
      (buf.length * buf.numberOfChannels * 2 % 256) ::
      (buf.length * buf.numberOfChannels * 2 / 256 % 256) ::
      (buf.length * buf.numberOfChannels * 2 / 65536 % 256) ::
      (buf.length * buf.numberOfChannels * 2 / 16777216 % 256) ::
      wavData buf := by
  simp [audioBufferToWavBlob, wavHeader, u32le, u16le]

/-- C3: for every decoded audio buffer with N frames, C channels and sample
rate R, audioBufferToWavBlob deterministically produces exactly
44 + N*C*2 bytes: a 44-byte header carrying the RIFF tag, the riff size
36 + N*C*2, PCM format code 1, channel count C, sample rate R, byte rate
R*C*2, block align C*2 and bits-per-sample 16 at their fixed little-endian
byte offsets, followed by the frame-by-frame interleaved 16-bit samples in
channel order.  The bounds assume the field values fit their 16- and 32-bit
header slots, which is exactly when the DataView writes do not wrap. -/
theorem wav_encoder_layout (buf : AudioBuffer)
    (hC : buf.numberOfChannels * 2 < 65536)
    (hR : buf.sampleRate < 4294967296)
    (hBR : buf.sampleRate * buf.numberOfChannels * 2 < 4294967296)
    (hLen : 36 + buf.length * buf.numberOfChannels * 2 < 4294967296) :
    (audioBufferToWavBlob buf).type = "audio/wav" ∧
    (audioBufferToWavBlob buf).data.length
      = 44 + buf.length * buf.numberOfChannels * 2 ∧
    (audioBufferToWavBlob buf).data.take 4 = writeStringBytes "RIFF" ∧
    readU32At (audioBufferToWavBlob buf).data 4
      = 36 + buf.length * buf.numberOfChannels * 2 ∧
    readU16At (audioBufferToWavBlob buf).data 20 = 1 ∧
    readU16At (audioBufferToWavBlob buf).data 22 = buf.numberOfChannels ∧
    readU32At (audioBufferToWavBlob buf).data 24 = buf.sampleRate ∧
    readU32At (audioBufferToWavBlob buf).data 28
      = buf.sampleRate * buf.numberOfChannels * 2 ∧
    readU16At (audioBufferToWavBlob buf).data 32 = buf.numberOfChannels * 2 ∧
    readU16At (audioBufferToWavBlob buf).data 34 = 16 ∧
    readU32At (audioBufferToWavBlob buf).data 40
      = buf.length * buf.numberOfChannels * 2 ∧
    (audioBufferToWavBlob buf).data.drop 44
      = (List.range buf.length).flatMap (fun off =>
          (List.range buf.numberOfChannels).flatMap (fun i =>
            i16le (sampleToInt16 (channelSample buf i off)))) := by
  refine ⟨rfl, ?_, ?_, ?_, ?_, ?_, ?_, ?_, ?_, ?_, ?_, ?_⟩
  · rw [wavBytes_cons]
    simp only [List.length_cons, wavData_length]
    omega
  · rw [wavBytes_cons]
    rfl
  · rw [wavBytes_cons]
    show (36 + buf.length * buf.numberOfChannels * 2) % 256
        + 256 * ((36 + buf.length * buf.numberOfChannels * 2) / 256 % 256)
        + 65536 * ((36 + buf.length * buf.numberOfChannels * 2) / 65536 % 256)
        + 16777216 * ((36 + buf.length * buf.numberOfChannels * 2) / 16777216 % 256)
        = 36 + buf.length * buf.numberOfChannels * 2
    omega
  · rw [wavBytes_cons]
    rfl
  · rw [wavBytes_cons]
    show buf.numberOfChannels % 256 + 256 * (buf.numberOfChannels / 256 % 256)
        = buf.numberOfChannels
    omega
  · rw [wavBytes_cons]
    show buf.sampleRate % 256 + 256 * (buf.sampleRate / 256 % 256)
        + 65536 * (buf.sampleRate / 65536 % 256)
        + 16777216 * (buf.sampleRate / 16777216 % 256) = buf.sampleRate
    omega
  · rw [wavBytes_cons]
    show buf.sampleRate * buf.numberOfChannels * 2 % 256
        + 256 * (buf.sampleRate * buf.numberOfChannels * 2 / 256 % 256)
        + 65536 * (buf.sampleRate * buf.numberOfChannels * 2 / 65536 % 256)
        + 16777216 * (buf.sampleRate * buf.numberOfChannels * 2 / 16777216 % 256)
        = buf.sampleRate * buf.numberOfChannels * 2
    omega
  · rw [wavBytes_cons]
    show buf.numberOfChannels * 2 % 256 + 256 * (buf.numberOfChannels * 2 / 256 % 256)
        = buf.numberOfChannels * 2
    omega
  · rw [wavBytes_cons]
    rfl
  · rw [wavBytes_cons]
    show buf.length * buf.numberOfChannels * 2 % 256
        + 256 * (buf.length * buf.numberOfChannels * 2 / 256 % 256)
        + 65536 * (buf.length * buf.numberOfChannels * 2 / 65536 % 256)
        + 16777216 * (buf.length * buf.numberOfChannels * 2 / 16777216 % 256)
        = buf.length * buf.numberOfChannels * 2
    omega
  · rw [wavBytes_cons]
    rfl

/-- A small concrete stereo buffer used to witness the encoder theorems. -/
def demoBuffer : AudioBuffer :=
  { numberOfChannels := 2, length := 2, sampleRate := 44100,
    channelData := [[1 / 2, -2], [0, 3 / 4]] }

/-- Witness for C3: the layout theorem applied to a concrete 2-channel,
2-frame, 44100 Hz buffer. -/
theorem wav_encoder_layout_witness :
    (demoBuffer.numberOfChannels * 2 < 65536 ∧
     demoBuffer.sampleRate < 4294967296 ∧
     demoBuffer.sampleRate * demoBuffer.numberOfChannels * 2 < 4294967296 ∧
     36 + demoBuffer.length * demoBuffer.numberOfChannels * 2 < 4294967296) ∧
    (audioBufferToWavBlob demoBuffer).data.length = 44 + 2 * 2 * 2 ∧
    readU16At (audioBufferToWavBlob demoBuffer).data 22 = demoBuffer.numberOfChannels ∧
    readU32At (audioBufferToWavBlob demoBuffer).data 24 = demoBuffer.sampleRate := by
  have h := wav_encoder_layout demoBuffer (by decide) (by decide) (by decide) (by decide)
  exact ⟨⟨by decide, by decide, by decide, by decide⟩,
    h.2.1, h.2.2.2.2.2.1, h.2.2.2.2.2.2.1⟩

/-- C4: for every input sample value, including values outside [-1, 1],
the encoder clamps before scaling (negative values by 32768, nonnegative
ones by 32767), so the stored 16-bit value always lies in [-32768, 32767]
and its two-complement encoding decodes back to the same value — no
wrap-around.  The boundary cases show out-of-range inputs saturating. -/
theorem wav_sample_clamp_no_overflow :
    (∀ s : ℚ, -32768 ≤ sampleToInt16 s ∧ sampleToInt16 s ≤ 32767 ∧
      readI16 (i16le (sampleToInt16 s)) = sampleToInt16 s ∧
      sampleToInt16 s = sampleToInt16 (clampSample s)) ∧
    sampleToInt16 (-2) = -32768 ∧ sampleToInt16 2 = 32767 := by
  refine ⟨fun s => ?_, ?_, ?_⟩
  · obtain ⟨h1, h2⟩ := sampleToInt16_bounds s
    refine ⟨h1, h2, readI16_i16le _ h1 h2, ?_⟩
    unfold sampleToInt16
    rw [clampSample_idem]
  · show truncQ (scaleSample (clampSample (-2))) = -32768
    have hc : clampSample (-2) = -1 := by
      unfold clampSample
      rw [min_eq_right (by norm_num), max_eq_left (by norm_num)]
    rw [hc]
    norm_num [scaleSample, truncQ]
  · show truncQ (scaleSample (clampSample 2)) = 32767
    have hc : clampSample 2 = 1 := by
      unfold clampSample
      rw [min_eq_left (by norm_num), max_eq_right (by norm_num)]
    rw [hc]
    norm_num [scaleSample, truncQ]

/-- A platform on which every decode attempt fails. -/
def failPlatform : Platform := { decode := fun _ => none, shelfFilter := id }

/-- A platform on which every decode succeeds with the demo buffer. -/
def okPlatform : Platform := { decode := fun _ => some demoBuffer, shelfFilter := id }

/-- A non-empty capture blob with a non-WAVE declared type. -/
def webmBlob : Blob := { type := "audio/webm", data := [1, 2, 3] }

/-- A non-empty blob whose declared type is WAVE. -/
def wavBlob : Blob := { type := "audio/wav", data := [9, 9] }

/-- C5: whenever the platform decode of a non-empty input blob fails, for
any gain and mode, normalizeAudioVolume returns the input blob itself —
byte-identical, same type — and, being a total function whose failure
paths all return a blob, it never raises to its caller. -/
theorem normalize_decode_fail_returns_original (env : Platform) (audioBlob : Blob)
    (g : ℚ) (hm : Bool) (_hne : audioBlob.data ≠ [])
    (hd : env.decode audioBlob.data = none) :
    normalizeAudioVolume env audioBlob g hm = audioBlob := by
  unfold normalizeAudioVolume
  rw [hd]
  split
  · rfl
  · split
    · rfl
    · rfl

/-- Witness for C5 at a concrete undecodable webm blob. -/
theorem normalize_decode_fail_returns_original_witness :
    (webmBlob.data ≠ [] ∧ failPlatform.decode webmBlob.data = none) ∧
    normalizeAudioVolume failPlatform webmBlob (5 / 2) false = webmBlob :=
  ⟨⟨by decide, rfl⟩,
    normalize_decode_fail_returns_original failPlatform webmBlob (5 / 2) false
      (by decide) rfl⟩

/-- C9: a WAVE-typed blob skips normalization entirely: for any platform,
gain and mode, normalizeAudioVolume returns the input blob unchanged, so
WAVE-typed audio never receives the gain boost. -/
theorem normalize_wav_skip (env : Platform) (audioBlob : Blob)
    (g : ℚ) (hm : Bool) (ht : audioBlob.type = "audio/wav") :
    normalizeAudioVolume env audioBlob g hm = audioBlob := by
  unfold normalizeAudioVolume
  rw [if_pos ht]
  split
  · rfl
  · rfl

/-- Witness for C9 at a concrete WAVE blob, on a platform whose decode
would succeed, with the music gain. -/
theorem normalize_wav_skip_witness :
    wavBlob.type = "audio/wav" ∧
    normalizeAudioVolume okPlatform wavBlob (5 / 2) false = wavBlob :=
  ⟨rfl, normalize_wav_skip okPlatform wavBlob (5 / 2) false rfl⟩

/-- C8: a WAVE-typed blob passes convertToWav unchanged, regardless of its
byte contents and of what the platform decoder would do with it. -/
theorem convert_wav_identity (env : Platform) (audioBlob : Blob)
    (ht : audioBlob.type = "audio/wav") :
    convertToWav env audioBlob = audioBlob := by
  unfold convertToWav
  rw [if_pos ht]

/-- Witness for C8: the identity fast path at a concrete WAVE blob whose
bytes are not even decodable. -/
theorem convert_wav_identity_witness :
    wavBlob.type = "audio/wav" ∧ convertToWav failPlatform wavBlob = wavBlob :=
  ⟨rfl, convert_wav_identity failPlatform wavBlob rfl⟩

theorem writeRIFF : writeStringBytes "RIFF" = [82, 73, 70, 70] := rfl

theorem writeWAVE : writeStringBytes "WAVE" = [87, 65, 86, 69] := rfl

theorem writeFmtSp : writeStringBytes "fmt " = [102, 109, 116, 32] := rfl

theorem writeDataTag : writeStringBytes "data" = [100, 97, 116, 97] := rfl

theorem minimalWav_cons (raw : List Nat) :
    (createMinimalWav raw).data =
      82 :: 73 :: 70 :: 70 ::
      ((36 + raw.length) % 256) :: ((36 + raw.length) / 256 % 256) ::
      ((36 + raw.length) / 65536 % 256) :: ((36 + raw.length) / 16777216 % 256) ::
      87 :: 65 :: 86 :: 69 ::
      102 :: 109 :: 116 :: 32 ::
      16 :: 0 :: 0 :: 0 ::
      1 :: 0 ::
      1 :: 0 ::
      68 :: 172 :: 0 :: 0 ::
      136 :: 88 :: 1 :: 0 ::
      2 :: 0 ::
      16 :: 0 ::
      100 :: 97 :: 116 :: 97 ::
      (raw.length % 256) :: (raw.length / 256 % 256) ::
      (raw.length / 65536 % 256) :: (raw.length / 16777216 % 256) ::
      raw := by
  simp [createMinimalWav, minimalWavHeader, writeRIFF, writeWAVE, writeFmtSp,
    writeDataTag, u32le, u16le]

/-- C6: for a non-WAVE blob whose bytes the platform cannot decode, a
non-empty input is wrapped as exactly the 44-byte minimal header (PCM tag
1, mono, 44100 Hz, 16 bits, data length = input length) followed by the
unmodified raw input bytes, while an empty input returns the original blob
untouched. -/
theorem convert_fallback_wrap (env : Platform) (audioBlob : Blob)
    (ht : audioBlob.type ≠ "audio/wav")
    (hd : env.decode audioBlob.data = none)
    (hlen : audioBlob.data.length < 4294967296) :
    (audioBlob.data ≠ [] →
      convertToWav env audioBlob = createMinimalWav audioBlob.data ∧
      (convertToWav env audioBlob).type = "audio/wav" ∧
      (convertToWav env audioBlob).data.length = 44 + audioBlob.data.length ∧
      (convertToWav env audioBlob).data.drop 44 = audioBlob.data ∧
      readU16At (convertToWav env audioBlob).data 20 = 1 ∧
      readU16At (convertToWav env audioBlob).data 22 = 1 ∧
      readU32At (convertToWav env audioBlob).data 24 = 44100 ∧
      readU16At (convertToWav env audioBlob).data 34 = 16 ∧
      readU32At (convertToWav env audioBlob).data 40 = audioBlob.data.length) ∧
    (audioBlob.data = [] → convertToWav env audioBlob = audioBlob) := by
  constructor
  · intro hne
    have hc : convertToWav env audioBlob = createMinimalWav audioBlob.data := by
      unfold convertToWav
      rw [if_neg ht, if_neg (by simpa using hne), hd]
    refine ⟨hc, by rw [hc]; rfl, ?_, ?_, ?_, ?_, ?_, ?_, ?_⟩
    · rw [hc, minimalWav_cons]
      simp only [List.length_cons]
      omega
    · rw [hc, minimalWav_cons]
      rfl
    · rw [hc, minimalWav_cons]
      show (1 : Nat) + 256 * 0 = 1
      norm_num
    · rw [hc, minimalWav_cons]
      show (1 : Nat) + 256 * 0 = 1
      norm_num
    · rw [hc, minimalWav_cons]
      show (68 : Nat) + 256 * 172 + 65536 * 0 + 16777216 * 0 = 44100
      norm_num
    · rw [hc, minimalWav_cons]
      show (16 : Nat) + 256 * 0 = 16
      norm_num
    · rw [hc, minimalWav_cons]
      show audioBlob.data.length % 256 + 256 * (audioBlob.data.length / 256 % 256)
          + 65536 * (audioBlob.data.length / 65536 % 256)
          + 16777216 * (audioBlob.data.length / 16777216 % 256)
          = audioBlob.data.length
      omega
  · intro hempty
    unfold convertToWav
    rw [if_neg ht, if_pos (by simp [hempty])]

/-- Witness for C6: the fallback wrap at a concrete undecodable webm blob
with three raw bytes, and the untouched return at a concrete empty blob. -/
theorem convert_fallback_wrap_witness :
    (webmBlob.type ≠ "audio/wav" ∧ failPlatform.decode webmBlob.data = none ∧
      webmBlob.data.length < 4294967296 ∧ webmBlob.data ≠ []) ∧
    convertToWav failPlatform webmBlob = createMinimalWav webmBlob.data ∧
    (convertToWav failPlatform webmBlob).data.length = 44 + webmBlob.data.length ∧
    (convertToWav failPlatform webmBlob).data.drop 44 = webmBlob.data ∧
    readU16At (convertToWav failPlatform webmBlob).data 22 = 1 ∧
    readU32At (convertToWav failPlatform webmBlob).data 24 = 44100 := by
  have h := (convert_fallback_wrap failPlatform webmBlob (by decide) rfl
    (by decide)).1 (by decide)
  exact ⟨⟨by decide, rfl, by decide, by decide⟩,
    h.1, h.2.2.1, h.2.2.2.1, h.2.2.2.2.2.1, h.2.2.2.2.2.2.1⟩

/-- C7: the claim that canDecodeAudio releases every decoding context it
opens on every exit path fails on the decode-failure path: the catch block
returns false without closing the AudioContext opened in the try block, so
exactly one context is opened and none is closed.  The success and
empty-input paths do close what they open. -/
theorem canDecode_leaks_on_failure :
    canDecodeAudio failPlatform webmBlob
      = { result := false, opened := 1, closed := 0 } ∧
    canDecodeAudio failPlatform { type := "audio/webm", data := [] }
      = { result := false, opened := 1, closed := 1 } ∧
    canDecodeAudio okPlatform webmBlob = { result := true, opened := 1, closed := 1 } ∧
    canDecodeAudio failPlatform wavBlob = { result := true, opened := 0, closed := 0 } :=
  ⟨rfl, rfl, rfl, rfl⟩

/-- C10: every normalizeAudioVolume invocation a capture-controller segment
pipeline makes uses gain VOLUME_BOOST.MUSIC = 5/2 and forHumming = false,
never the 4.0 HUMMING constant, and with that mode the render graph is the
plain gain stage - the humming shelving-filter branch is unreachable from
the capture pipeline, whatever the platform filters would do. -/
theorem pipeline_music_mode_only (env : Platform) (latched : Bool) (data : Blob)
    (c : ℚ × Bool) (hc : c ∈ (processSegment env latched data).normalizeCalls) :
    c.1 = VOLUME_BOOST.MUSIC ∧ c.1 = 5 / 2 ∧ c.2 = false ∧
    c.1 ≠ VOLUME_BOOST.HUMMING ∧
    ∀ chans, renderChannels env c.1 c.2 chans = applyGain c.1 chans := by
  unfold processSegment at hc
  split at hc
  · simp at hc
  · split at hc
    · simp at hc
    · split at hc
      · simp only [List.mem_singleton] at hc
        subst hc
        refine ⟨rfl, rfl, rfl, by norm_num [VOLUME_BOOST], fun chans => rfl⟩
      · simp at hc

theorem wavSegment_calls :
    (processSegment failPlatform false wavBlob).normalizeCalls
      = [(VOLUME_BOOST.MUSIC, false)] := rfl

/-- Witness for C10: a decodable WAVE segment in an unlatched session
produces exactly one normalizer call, with gain 5/2 and music mode. -/
theorem pipeline_music_mode_only_witness :
    ((VOLUME_BOOST.MUSIC, false) ∈
      (processSegment failPlatform false wavBlob).normalizeCalls) ∧
    (VOLUME_BOOST.MUSIC, false).1 = 5 / 2 ∧
    ((VOLUME_BOOST.MUSIC, false).1 ≠ VOLUME_BOOST.HUMMING) := by
  have hmem : (VOLUME_BOOST.MUSIC, false) ∈
      (processSegment failPlatform false wavBlob).normalizeCalls := by
    rw [wavSegment_calls]
    exact List.mem_singleton.mpr rfl
  exact ⟨hmem,
    (pipeline_music_mode_only failPlatform false wavBlob _ hmem).2.1,
    (pipeline_music_mode_only failPlatform false wavBlob _ hmem).2.2.2.1⟩

/-- C2: in every reachable session state at most one recognition request is
outstanding, and whenever an attempt is in flight or a match is latched, a
pipeline that reaches the submit site is a no-op apart from finishing: the
recognizeSong guard returns before the fetch, so no request is issued and
no session field changes. -/
theorem single_flight (s : Sess) (hs : Reach s) :
    s.flight ≤ 1 ∧
    ((s.recognizing = true ∨ s.latch.isSome = true) →
      submitStep s = { s with pipes := s.pipes - 1 }) := by
  obtain ⟨i1, _⟩ := sessInv_of_reach hs
  constructor
  · split at i1 <;> omega
  · intro h
    unfold submitStep
    split
    · rfl
    · split
      · rfl
      · next h1 h2 =>
        rcases h with h | h
        · exact absurd h h2
        · exact absurd h h1

/-- The session right after the first segment entered processing. -/
def sessAfterSeg : Sess := segArrive webmBlob initSess

/-- The session with the first recognition request in flight. -/
def sessInFlight : Sess := submitStep sessAfterSeg

/-- The session after that request matched: latched and stopped. -/
def sessLatched : Sess := completeStep (Outcome.matched "song") sessInFlight

theorem reach_sessInFlight : Reach sessInFlight :=
  Reach.step (Reach.step Reach.init (SessStep.seg webmBlob))
    (SessStep.submit (by decide))

theorem reach_sessLatched : Reach sessLatched :=
  Reach.step reach_sessInFlight
    (SessStep.complete (Outcome.matched "song") (by decide))

/-- Witness for C2: the in-flight state is reachable, satisfies the bound,
and an overlapping submission there changes nothing but the pipe count. -/
theorem single_flight_witness :
    Reach sessInFlight ∧ sessInFlight.flight ≤ 1 ∧
    sessInFlight.recognizing = true ∧
    submitStep sessInFlight = { sessInFlight with pipes := sessInFlight.pipes - 1 } :=
  ⟨reach_sessInFlight, (single_flight sessInFlight reach_sessInFlight).1, by decide,
    (single_flight sessInFlight reach_sessInFlight).2 (Or.inl (by decide))⟩

/-- C1: once a reachable session has latched a match, every possible next
event preserves the latch exactly (no overwrite, no reset to no-match or
failure), the session has no outstanding attempt and acquires none (no
subsequent segment produces a recognition attempt, because every pipeline
re-checks the latch right before submission), and capture is and stays
stopped. -/
theorem latch_monotone (s t : Sess) (r : String) (hs : Reach s)
    (hl : s.latch = some r) (hstep : SessStep s t) :
    t.latch = some r ∧ s.flight = 0 ∧ t.flight = 0 ∧
    s.recognizing = false ∧ s.capturing = false ∧ t.capturing = false := by
  obtain ⟨i1, i2⟩ := sessInv_of_reach hs
  obtain ⟨hrec, hcap, hfl⟩ := i2 (by simp [hl])
  cases hstep with
  | seg d =>
    unfold segArrive
    rw [if_pos (by simp [hl])]
    exact ⟨hl, hfl, hfl, hrec, hcap, hcap⟩
  | submit hp =>
    unfold submitStep
    rw [if_pos (by simp [hl])]
    exact ⟨hl, hfl, hfl, hrec, hcap, hcap⟩
  | complete o hf => exact absurd hf (by omega)
  | timeout =>
    unfold timeoutStep
    rw [if_pos (by simp [hl])]
    exact ⟨hl, hfl, hfl, hrec, hcap, hcap⟩
  | stop => exact ⟨hl, hfl, hfl, hrec, hcap, rfl⟩

/-- Witness for C1: the latched state reached by segment, submission and a
matched response, followed by one more arriving segment, which is
discarded with every field intact. -/
theorem latch_monotone_witness :
    (Reach sessLatched ∧ sessLatched.latch = some "song") ∧
    ((segArrive webmBlob sessLatched).latch = some "song" ∧
      sessLatched.flight = 0 ∧ (segArrive webmBlob sessLatched).flight = 0 ∧
      sessLatched.recognizing = false ∧ sessLatched.capturing = false ∧
      (segArrive webmBlob sessLatched).capturing = false) :=
  ⟨⟨reach_sessLatched, by decide⟩,
    latch_monotone sessLatched (segArrive webmBlob sessLatched) "song"
      reach_sessLatched (by decide) (SessStep.seg webmBlob)⟩
